import Mathlib

/-!
# Verification of the hodalabs transaction deduplication / import pipeline

Shallow embedding of the reconciliation matcher
(`src/app/api/check-duplicates/route.ts`), the amount normalizers and the
bank CSV import loop (the CSV import routes), and the archive-reference
suppression in the save route (`src/app/api/save-transactions/route.ts`),
together with theorems settling the specification's statements about them.

JavaScript conventions are modelled explicitly:
* an optional / possibly-`undefined` string field is `Option String`;
* JS truthiness of a string value (`undefined`, `null` and `""` are falsy)
  is `strTruthy`;
* the JS idiom `a || b` on string values is `jsOr` / `jsOrOpt` / `jsOrNull`
  depending on whether the fallback is a plain string, an optional value,
  or `null`;
* string manipulation (`toLowerCase`, `trim`, `split`, ...) is carried out
  over the underlying character list, so every definition evaluates by
  kernel reduction.
-/

instance {ε α : Type} [DecidableEq ε] [DecidableEq α] : DecidableEq (Except ε α) := fun a b =>
  match a, b with
  | .ok a, .ok b => decidable_of_iff (a = b) (by simp)
  | .error a, .error b => decidable_of_iff (a = b) (by simp)
  | .ok _, .error _ => isFalse (by simp)
  | .error _, .ok _ => isFalse (by simp)

/-- JS truthiness of an optional string: `undefined`/`null`/`""` are falsy. -/
def strTruthy : Option String → Bool
  | none => false
  | some s => s ≠ ""

/-- The string stored in an optional field (used only under a `strTruthy`
guard, where JS would have the actual string). -/
def getStr (o : Option String) : String := o.getD ""

/-- JS `a || b` where the result is used as a string (`b` a plain string). -/
def jsOr (a : Option String) (b : String) : String :=
  if strTruthy a then getStr a else b

/-- JS `a || b` where both sides are optional strings. -/
def jsOrOpt (a b : Option String) : Option String :=
  if strTruthy a then a else b

/-- JS `a || null`. -/
def jsOrNull (a : Option String) : Option String :=
  if strTruthy a then a else none

/-- JS `String.prototype.toLowerCase` (ASCII case mapping), over characters. -/
def jsToLower (s : String) : String := String.mk (s.toList.map Char.toLower)

/-- JS `String.prototype.trim`: drop whitespace from both ends. -/
def jsTrim (s : String) : String :=
  String.mk
    (((s.toList.dropWhile Char.isWhitespace).reverse.dropWhile
        Char.isWhitespace).reverse)

/-- JS `String.prototype.split` on a character class, keeping empty pieces
(`"a;;b".split(/[;]/) = ["a","","b"]`, `"".split(/[;]/) = [""]`). -/
def splitChars (p : Char → Bool) : List Char → List (List Char)
  | [] => [[]]
  | c :: cs =>
    match splitChars p cs with
    | [] => [[]]
    | h :: t => if p c then [] :: h :: t else (c :: h) :: t

/-- JS `s.split(sep)` as a list of strings. -/
def jsSplit (s : String) (p : Char → Bool) : List String :=
  (splitChars p s.toList).map String.mk

/-- Whether `needle` occurs as a contiguous prefix of `hay`. -/
def isPrefixChars : List Char → List Char → Bool
  | [], _ => true
  | _ :: _, [] => false
  | a :: as, b :: bs => a == b && isPrefixChars as bs

/-- JS `hay.includes(needle)` (substring containment). -/
def containsSub (hay needle : List Char) : Bool :=
  match hay with
  | [] => needle.isEmpty
  | _ :: rest => isPrefixChars needle hay || containsSub rest needle

/-- JS `hay.includes(needle)` on strings. -/
def jsIncludes (hay needle : String) : Bool :=
  containsSub hay.toList needle.toList

/-- `normalizePaymentId` from `check-duplicates/route.ts`:
`id.toLowerCase().trim()`. -/
def normalizePaymentId (id : String) : String := jsTrim (jsToLower id)

/-- `paymentIdsMatch` from `check-duplicates/route.ts`. -/
def paymentIdsMatch (id1 id2 : String) : Bool :=
  normalizePaymentId id1 == normalizePaymentId id2

/-- The candidate transaction shape received by the duplicate-check route
(`interface Transaction` in `check-duplicates/route.ts`). -/
structure Transaction where
  stripe_payment_id : Option String
  amount : Int
  currency : String
  archive_reference : Option String
  bank_reference : Option String
deriving DecidableEq, Repr

/-- An existing ledger row as selected by the duplicate-check route:
`select("source_reference, archive_reference, amount, currency, source_type")`. -/
structure DbRow where
  source_reference : Option String
  archive_reference : Option String
  amount : Int
  currency : String
  source_type : String
deriving DecidableEq, Repr

/-- Tier 1 of `transactionMatches`: both sides carry an archive reference and
they are equal after normalization. -/
def tier1Matches (e : Transaction) (d : DbRow) : Bool :=
  strTruthy e.archive_reference && strTruthy d.archive_reference &&
    (normalizePaymentId (getStr e.archive_reference) ==
      normalizePaymentId (getStr d.archive_reference))

/-- Tier 2 of `transactionMatches`: candidate payment id against the row's
`source_reference`. -/
def tier2Matches (e : Transaction) (d : DbRow) : Bool :=
  strTruthy e.stripe_payment_id && strTruthy d.source_reference &&
    paymentIdsMatch (getStr e.stripe_payment_id) (getStr d.source_reference)

/-- The candidate identifier used inside the Tier-3 fallback of
`transactionMatches`:
`extracted.stripe_payment_id || extracted.archive_reference || ""`.
Note that `bank_reference` is not consulted here. -/
def tier3ExtractedId (e : Transaction) : String :=
  jsOr e.stripe_payment_id (jsOr e.archive_reference "")

/-- The ledger identifier used inside the Tier-3 fallback of
`transactionMatches`:
`dbTransaction.source_reference || dbTransaction.archive_reference || ""`. -/
def tier3DbId (d : DbRow) : String :=
  jsOr d.source_reference (jsOr d.archive_reference "")

/-- Character-length difference of the two Tier-3 identifiers
(`Math.abs(extractedId.length - dbId.length)`). -/
def tier3LenDiff (e : Transaction) (d : DbRow) : Nat :=
  (((tier3ExtractedId e).length : Int) - ((tier3DbId d).length : Int)).natAbs

/-- Tier 3 of `transactionMatches`: exact amount equality, case-insensitive
currency equality, both identifiers present (JS truthiness of the strings),
and length difference at most 5. -/
def tier3Matches (e : Transaction) (d : DbRow) : Bool :=
  (e.amount == d.amount) &&
    (normalizePaymentId e.currency == normalizePaymentId d.currency) &&
    !(tier3ExtractedId e == "") && !(tier3DbId d == "") &&
    (tier3LenDiff e d ≤ 5)

/-- `transactionMatches` from `check-duplicates/route.ts`: the three guarded
early-return branches are equivalent to a short-circuit disjunction of the
three tiers, in order. -/
def transactionMatches (e : Transaction) (d : DbRow) : Bool :=
  tier1Matches e d || tier2Matches e d || tier3Matches e d

/-- The diagnostic tier labels used in the route's `matchDetails`. -/
inductive MatchType where
  | payment_id
  | archive_reference
  | amount_currency
deriving DecidableEq, Repr

/-- The `matchType` assignment in the matching loop of the POST handler:
chosen from field *presence*, with only the stripe branch re-checking the
actual id comparison. -/
def matchTypeFor (e : Transaction) (d : DbRow) : MatchType :=
  if strTruthy e.archive_reference && strTruthy d.archive_reference then
    .archive_reference
  else if strTruthy e.stripe_payment_id && strTruthy d.source_reference then
    if paymentIdsMatch (getStr e.stripe_payment_id) (getStr d.source_reference) then
      .payment_id
    else
      .amount_currency
  else
    .amount_currency

/-- One entry of the route's `matchDetails`. -/
structure MatchDetail where
  extractedId : String
  matchedId : String
  matchType : MatchType
deriving DecidableEq, Repr

/-- The output of the matching loop: a `Set<string>` of normalized matched
candidate ids (modelled as an insertion-ordered duplicate-free list) and the
diagnostic details. -/
structure DupResult where
  matchedExtractedIds : List String
  matchDetails : List MatchDetail
deriving DecidableEq, Repr

/-- `Set.add`: append unless already present (JS `Set` keeps insertion
order). -/
def insertSet (l : List String) (s : String) : List String :=
  if s ∈ l then l else l ++ [s]

/-- The candidate identifier computed at the top of the matching loop:
`extracted.archive_reference || extracted.stripe_payment_id || extracted.bank_reference || ""`. -/
def loopExtractedId (e : Transaction) : String :=
  jsOr e.archive_reference (jsOr e.stripe_payment_id (jsOr e.bank_reference ""))

/-- The matched ledger identifier recorded in the details:
`dbTxn.archive_reference || dbTxn.source_reference || ""`. -/
def loopDbId (d : DbRow) : String :=
  jsOr d.archive_reference (jsOr d.source_reference "")

/-- One step of the matching loop: scan the ledger rows for the first
`transactionMatches` hit for this candidate, and record it. -/
def matchStep (rows : List DbRow) (acc : DupResult) (e : Transaction) : DupResult :=
  match rows.find? (fun d => transactionMatches e d) with
  | none => acc
  | some d =>
    { matchedExtractedIds :=
        insertSet acc.matchedExtractedIds (normalizePaymentId (loopExtractedId e))
      matchDetails :=
        acc.matchDetails ++ [⟨loopExtractedId e, loopDbId d, matchTypeFor e d⟩] }

/-- The matching loop of the duplicate-check POST handler (`findDuplicates`
in the specification's vocabulary): for each candidate, the first matching
ledger row wins and the scan for that candidate stops. -/
def findDuplicates (cands : List Transaction) (rows : List DbRow) : DupResult :=
  cands.foldl (matchStep rows) ⟨[], []⟩

/-- The `validTransactions` filter of the duplicate-check route: at least one
identifier field truthy, and a truthy currency (`amount` is a number by
typing). -/
def isValidTransaction (t : Transaction) : Bool :=
  (strTruthy t.stripe_payment_id || strTruthy t.archive_reference ||
      strTruthy t.bank_reference) &&
    !(t.currency == "")

/-- Outcome of the duplicate-check POST handler: an HTTP error response or a
successful match result. -/
inductive HandlerResult where
  | failure (status : Nat) (message : String)
  | ok (result : DupResult)
deriving DecidableEq, Repr

/-- Whether a handler outcome is an error response. -/
def HandlerResult.isFailure : HandlerResult → Bool
  | .failure _ _ => true
  | .ok _ => false

/-- The duplicate-check POST handler. The request body (`none` if the
`transactions` field is missing or not an array) and the result of the
Supabase read of existing rows are explicit inputs. -/
def checkDuplicatesPOST (transactions : Option (List Transaction))
    (dbFetch : Except String (List DbRow)) : HandlerResult :=
  match transactions with
  | none => .failure 400 "Transactions array is required"
  | some ts =>
    let valid := ts.filter isValidTransaction
    if valid.length = 0 then
      .failure 400 "No valid transactions provided"
    else
      match dbFetch with
      | .error msg => .failure 500 msg
      | .ok rows => .ok (findDuplicates valid rows)

/-! ## Amount normalization (CSV import routes)

Both CSV import routes define a `convertAmountToMinorUnits` helper that
cleans the raw amount string, applies JS `parseFloat`, and returns
`Math.round(majorUnits * 100)` (throwing on `NaN`, modelled as `none`).

`parseFloat` on the decimal strings reachable here (optional sign, digits,
optional fractional part; longest valid prefix; no exponent) produces the
exact value `mantissa / 10^fracLen`, which we carry as the pair
`(mantissa, fracLen)`. -/

/-- Numeric value of a digit sequence. -/
def digitsToNat (ds : List Char) : Nat :=
  ds.foldl (fun acc c => 10 * acc + (c.toNat - 48)) 0

/-- JS `parseFloat` on decimal literals: skip leading whitespace, optional
sign, integer digits, optional `.` and fraction digits — longest valid
prefix, `none` (`NaN`) when no digit was consumed. The result represents the
exact value `mantissa / 10^fracLen`. -/
def parseFloatDec (s : String) : Option (Int × Nat) :=
  let cs := s.toList.dropWhile Char.isWhitespace
  let signed : Int × List Char :=
    match cs with
    | '-' :: rest => (-1, rest)
    | '+' :: rest => (1, rest)
    | _ => (1, cs)
  let intDs := signed.2.takeWhile Char.isDigit
  let fracDs :=
    match signed.2.dropWhile Char.isDigit with
    | '.' :: r => r.takeWhile Char.isDigit
    | _ => []
  if intDs.isEmpty && fracDs.isEmpty then none
  else
    some (signed.1 * ((digitsToNat intDs : Int) * 10 ^ fracDs.length +
      (digitsToNat fracDs : Int)), fracDs.length)

/-- `Math.round(majorUnits * 100)` for the exact value
`majorUnits = m / 10^k`. JS `Math.round(y) = ⌊y + 1/2⌋`, and
`⌊100·m/10^k + 1/2⌋ = ⌊(200·m + 10^k) / (2·10^k)⌋` (floor division). -/
def roundTimes100 (p : Int × Nat) : Int :=
  Int.fdiv (200 * p.1 + 10 ^ p.2) (2 * 10 ^ p.2)

/-- JS `s.replace(",", ".")`: only the first comma is replaced. -/
def replaceFirstComma : List Char → List Char
  | [] => []
  | c :: cs => if c == ',' then '.' :: cs else c :: replaceFirstComma cs

/-- `convertAmountToMinorUnits` from the bank CSV import route: trim and
drop all whitespace, strip one leading minus sign, convert Norwegian format
(`1.582,50`) to standard (`1582.50`) when a comma is present, `parseFloat`,
and `Math.round(majorUnits * 100)`. -/
def convertAmountToMinorUnitsBank (amountStr : String) : Option Int :=
  let cleaned0 := amountStr.toList.filter (fun c => !c.isWhitespace)
  let cleaned1 :=
    match cleaned0 with
    | '-' :: rest => rest
    | l => l
  let cleaned2 :=
    if cleaned1.contains ',' then
      replaceFirstComma (cleaned1.filter (fun c => !(c == '.')))
    else cleaned1
  (parseFloatDec (String.mk cleaned2)).map roundTimes100

/-- `convertAmountToMinorUnits` from the Stripe CSV import route:
`amountStr.replace(/[^\d,.-]/g, "").replace(",", ".")`, `parseFloat`, and
`Math.round(majorUnits * 100)`. -/
def convertAmountToMinorUnitsStripe (amountStr : String) : Option Int :=
  let kept := amountStr.toList.filter
    (fun c => c.isDigit || c == ',' || c == '.' || c == '-')
  (parseFloatDec (String.mk (replaceFirstComma kept))).map roundTimes100

/-! ## The save route (`save-transactions/route.ts`) -/

/-- The raw transaction object received by the save route (only the fields
the handler reads). -/
structure SaveInput where
  type : Option String
  amount : Int
  currency : String
  transaction_date : Option String
  source_type : Option String
  source_reference : Option String
  stripe_payment_id : Option String
  project_id : Option String
  customer_email : Option String
  description : Option String
  counterparty : Option String
  bank_reference : Option String
  archive_reference : Option String
  transaction_type : Option String
  category : Option String
deriving DecidableEq, Repr

/-- A row in the shape the save route hands to the insert. -/
structure SaveRow where
  type : String
  amount : Int
  currency : String
  transaction_date : String
  source_type : String
  source_reference : Option String
  project_id : Option String
  customer_email : Option String
  description : Option String
  counterparty : Option String
  bank_reference : Option String
  archive_reference : Option String
  transaction_type : Option String
  category : Option String
deriving DecidableEq, Repr

/-- The `archiveRefCounts` map of the save route: how many transactions of
the batch carry this (truthy) archive reference. -/
def countArchiveRef (ts : List SaveInput) (r : String) : Nat :=
  (ts.filter (fun t =>
    strTruthy t.archive_reference && (getStr t.archive_reference == r))).length

/-- The per-row mapping of `transactionsToInsert` in the save route. The
archive reference is kept only when exactly one transaction of the batch
carries it (`useArchiveRef = archiveRefCount === 1`). -/
def mapSaveRow (today : String) (ts : List SaveInput) (t : SaveInput) : SaveRow :=
  let archiveRefCount :=
    if strTruthy t.archive_reference then
      countArchiveRef ts (getStr t.archive_reference)
    else 0
  let useArchiveRef := archiveRefCount == 1
  { type := jsOr t.type "income"
    amount := t.amount
    currency := jsToLower t.currency
    transaction_date := jsOr t.transaction_date today
    source_type := jsOr t.source_type "stripe"
    source_reference := jsOrOpt t.source_reference t.stripe_payment_id
    project_id := jsOrNull t.project_id
    customer_email := jsOrNull t.customer_email
    description := jsOrNull t.description
    counterparty := jsOrNull t.counterparty
    bank_reference := jsOrNull t.bank_reference
    archive_reference := if useArchiveRef then t.archive_reference else none
    transaction_type := jsOrNull t.transaction_type
    category := jsOrNull t.category }

/-- `transactionsToInsert` of the save route (`today` stands for
`new Date().toISOString().split("T")[0]`). -/
def mapTransactionsToInsert (today : String) (ts : List SaveInput) : List SaveRow :=
  ts.map (mapSaveRow today ts)

/-! ## The bank CSV import route (per-record processing loop) -/

/-- A raw bank CSV record (`interface BankCSVTransaction`), plus the
`category` / `project_id` fields the route reads through `as any`. -/
structure BankCSVTxn where
  bokfortDato : Option String
  forklarendeTekst : Option String
  transaksjonstype : Option String
  ut : Option String
  inn : Option String
  arkivref : Option String
  referanse : Option String
  category : Option String
  project_id : Option String
deriving DecidableEq, Repr

/-- JS `s.padStart(2, "0")`. -/
def padStart2 (s : String) : String :=
  if s.length ≥ 2 then s else String.mk (List.replicate (2 - s.length) '0') ++ s

/-- The regex `^\d{4}-\d{2}-\d{2}$`. -/
def isIsoDateFormat (s : String) : Bool :=
  match s.toList with
  | [a, b, c, d, e, f, g, h, i, j] =>
    a.isDigit && b.isDigit && c.isDigit && d.isDigit && e == '-' &&
      f.isDigit && g.isDigit && h == '-' && i.isDigit && j.isDigit
  | _ => false

/-- `parseNorwegianDate`: pass `YYYY-MM-DD` through, otherwise rearrange
`DD.MM.YYYY`; `none` models the thrown error. -/
def parseNorwegianDate (dateStr : String) : Option String :=
  if isIsoDateFormat dateStr then some dateStr
  else
    match jsSplit dateStr (fun c => c == '.') with
    | [day, month, year] =>
      some (year ++ "-" ++ padStart2 month ++ "-" ++ padStart2 day)
    | _ => none

/-- The regex test `^\d{15,}` ("looks like a card number"). -/
def startsWith15Digits (s : String) : Bool :=
  (s.toList.takeWhile Char.isDigit).length ≥ 15

/-- JS `arr.slice(-2)`. -/
def lastTwo (l : List String) : List String := l.drop (l.length - 2)

/-- JS `arr.join(" ")`. -/
def joinWithSpace : List String → String
  | [] => ""
  | [s] => s
  | s :: rest => s ++ " " ++ joinWithSpace rest

/-- The counterparty extraction block of the bank CSV route: first part of
the description before `;` or `:`, trimmed; if it looks like a card number,
fall back to the second part or to the last two space-separated words. -/
def extractCounterparty (description : String) : Option String :=
  if description == "" then none
  else
    match jsSplit description (fun c => c == ';' || c == ':') with
    | [] => none
    | p0 :: rest =>
      if p0 == "" then none
      else
        let cp := jsTrim p0
        if !(cp == "") && startsWith15Digits cp then
          let alt1 :=
            match rest.head? with
            | some p1 => jsTrim p1
            | none => ""
          if !(alt1 == "") then some alt1
          else
            let alt2 := joinWithSpace (lastTwo (jsSplit description (fun c => c == ' ')))
            if !(alt2 == "") then some alt2 else none
        else some cp

/-- The salary-detection heuristic of the bank CSV route. -/
def isSalaryBank (counterpartyLower descriptionLower : String)
    (transaksjonstype : Option String) : Bool :=
  jsIncludes counterpartyLower "rafid hoda" ||
    jsIncludes counterpartyLower "rafid" ||
    jsIncludes descriptionLower "salary" ||
    ((transaksjonstype == some "Overføring innland") &&
      jsIncludes counterpartyLower "rafid")

/-- A row pushed onto `transactionsToInsert` by the bank CSV route. -/
structure BankRow where
  type : String
  amount : Int
  currency : String
  transaction_date : String
  source_type : String
  source_reference : String
  archive_reference : Option String
  bank_reference : Option String
  counterparty : Option String
  description : Option String
  transaction_type : Option String
  category : Option String
  project_id : Option String
deriving DecidableEq, Repr

/-- One iteration of the bank CSV processing loop: either the row pushed
onto `transactionsToInsert`, or the message pushed onto `errors` (`continue`
after pushing). `rand` stands for the `Math.random()` suffix of the
source-reference fallback. -/
def processBankRecord (rand : String) (c : BankCSVTxn) : Except String BankRow :=
  let isExpense := strTruthy c.ut
  let amountStr := if isExpense then c.ut else c.inn
  if !strTruthy amountStr || !strTruthy c.bokfortDato then
    .error ("Missing required fields for transaction: " ++ jsOr c.arkivref "unknown")
  else
    match convertAmountToMinorUnitsBank (getStr amountStr) with
    | none => .error ("Invalid amount format: " ++ getStr amountStr)
    | some amount =>
      match parseNorwegianDate (getStr c.bokfortDato) with
      | none => .error ("Invalid date format: " ++ getStr c.bokfortDato)
      | some transactionDate =>
        let description := jsOr c.forklarendeTekst ""
        let counterparty := extractCounterparty description
        let counterpartyLower := jsToLower (jsOr counterparty "")
        let descriptionLower := jsToLower description
        let isSalary := isSalaryBank counterpartyLower descriptionLower c.transaksjonstype
        .ok { type := if isExpense then "expense" else "income"
              amount := amount
              currency := "nok"
              transaction_date := transactionDate
              source_type := "bank"
              source_reference := jsOr c.arkivref (jsOr c.referanse
                ("bank_" ++ transactionDate ++ "_" ++ toString amount ++ "_" ++ rand))
              archive_reference := jsOrNull c.arkivref
              bank_reference := jsOrNull c.referanse
              counterparty := counterparty
              description := if description == "" then none else some description
              transaction_type := jsOrNull c.transaksjonstype
              category := jsOrOpt c.category (if isSalary then some "salary" else none)
              project_id := jsOrNull c.project_id }

/-- One loop iteration at the accumulator level: a processed row is appended
to the pending inserts, a rejection is appended to `errors` and the loop
continues with the next record. -/
def bankStep (rand : Nat → String) (acc : List BankRow × List String)
    (p : Nat × BankCSVTxn) : List BankRow × List String :=
  match processBankRecord (rand p.1) p.2 with
  | .ok row => (acc.1 ++ [row], acc.2)
  | .error e => (acc.1, acc.2 ++ [e])

/-- The whole processing loop of the bank CSV route: every record is
processed, in order; `rand i` is the random suffix drawn at iteration `i`. -/
def processBankCSV (rand : Nat → String) (txns : List BankCSVTxn) :
    List BankRow × List String :=
  txns.enum.foldl (bankStep rand) ([], [])

/-- The accepted side of a per-record outcome. -/
def acceptedRow : Except String BankRow → Option BankRow
  | .ok r => some r
  | .error _ => none

/-- The rejected side of a per-record outcome. -/
def rejectionMsg : Except String BankRow → Option String
  | .ok _ => none
  | .error e => some e

/-! ## Specification-side decompositions

`candidateMatch` / `candidateMatchedId` describe, following the spec's
reading of the matcher, what a single candidate contributes to the result:
its first matching ledger row, independent of every other candidate. -/

/-- The diagnostic entry a single candidate contributes, per the spec's
"first existing row satisfying any tier stops the scan". -/
def candidateMatch (rows : List DbRow) (e : Transaction) : Option MatchDetail :=
  (rows.find? (fun d => transactionMatches e d)).map
    (fun d => ⟨loopExtractedId e, loopDbId d, matchTypeFor e d⟩)

/-- The normalized identifier a single candidate contributes to
`matchedIds`. -/
def candidateMatchedId (rows : List DbRow) (e : Transaction) : Option String :=
  (rows.find? (fun d => transactionMatches e d)).map
    (fun _ => normalizePaymentId (loopExtractedId e))

/-- Rows that agree on every field the matcher reads (identifier fields,
amount, currency) and may differ in `source_type`. -/
def sameExceptSourceType (d d' : DbRow) : Prop :=
  d.source_reference = d'.source_reference ∧
    d.archive_reference = d'.archive_reference ∧
    d.amount = d'.amount ∧ d.currency = d'.currency


/-! ## Helper lemmas -/

/-- A candidate with no truthy processor payment id and no truthy archive
reference never satisfies `transactionMatches`: tiers 1 and 2 need those
fields, and the Tier-3 candidate identifier
(`stripe_payment_id || archive_reference || ""`) is empty. -/
lemma transactionMatches_of_bankRefOnly (e : Transaction) (d : DbRow)
    (h1 : strTruthy e.stripe_payment_id = false)
    (h2 : strTruthy e.archive_reference = false) :
    transactionMatches e d = false := by
  simp [transactionMatches, tier1Matches, tier2Matches, tier3Matches,
    tier3ExtractedId, jsOr, h1, h2]

/-- The matching loop, relative to an arbitrary accumulator: the details are
the accumulated per-candidate contributions, and the id set is the fold of
the per-candidate ids. -/
lemma foldl_matchStep_eq (rows : List DbRow) :
    ∀ (cands : List Transaction) (acc : DupResult),
      cands.foldl (matchStep rows) acc =
        ⟨(cands.filterMap (candidateMatchedId rows)).foldl insertSet
            acc.matchedExtractedIds,
          acc.matchDetails ++ cands.filterMap (candidateMatch rows)⟩ := by
  intro cands
  induction cands with
  | nil => intro acc; simp
  | cons e cs ih =>
    intro acc
    rw [List.foldl_cons, ih]
    cases h : rows.find? (fun d => transactionMatches e d) with
    | none =>
      simp [matchStep, candidateMatch, candidateMatchedId, h]
    | some d =>
      simp [matchStep, candidateMatch, candidateMatchedId, h]

/-- The bank CSV loop, relative to an arbitrary accumulator. -/
lemma foldl_bankStep_eq (rand : Nat → String) :
    ∀ (l : List (Nat × BankCSVTxn)) (acc : List BankRow × List String),
      l.foldl (bankStep rand) acc =
        (acc.1 ++ l.filterMap (fun p => acceptedRow (processBankRecord (rand p.1) p.2)),
          acc.2 ++ l.filterMap (fun p => rejectionMsg (processBankRecord (rand p.1) p.2))) := by
  intro l
  induction l with
  | nil => intro acc; simp
  | cons p ps ih =>
    intro acc
    rw [List.foldl_cons, ih]
    cases h : processBankRecord (rand p.1) p.2 with
    | ok row => simp [bankStep, acceptedRow, rejectionMsg, h]
    | error e => simp [bankStep, acceptedRow, rejectionMsg, h]

/-- No batch entry carries the empty string as a truthy archive reference. -/
lemma countArchiveRef_empty (ts : List SaveInput) : countArchiveRef ts "" = 0 := by
  unfold countArchiveRef
  rw [List.filter_eq_nil_iff.mpr]
  · rfl
  · intro t _
    cases h : t.archive_reference with
    | none => simp [strTruthy, h]
    | some s =>
      by_cases hs : s = "" <;> simp [strTruthy, getStr, h, hs]

/-- In a singleton batch, a truthy archive reference is counted once. -/
lemma countArchiveRef_singleton (t : SaveInput) (r : String)
    (har : t.archive_reference = some r) (hr : r ≠ "") :
    countArchiveRef [t] r = 1 := by
  simp [countArchiveRef, List.filter, strTruthy, getStr, har, hr]

/-- `transactionMatches`, `matchTypeFor` and the recorded ledger id never
read `source_type`. -/
lemma matcher_reads_no_sourceType (e : Transaction) (d d' : DbRow)
    (h : sameExceptSourceType d d') :
    transactionMatches e d = transactionMatches e d' ∧
      matchTypeFor e d = matchTypeFor e d' ∧ loopDbId d = loopDbId d' := by
  obtain ⟨h1, h2, h3, h4⟩ := h
  cases d
  cases d'
  simp only at h1 h2 h3 h4
  subst h1 h2 h3 h4
  exact ⟨rfl, rfl, rfl⟩

/-- `find?` over rows related by `sameExceptSourceType` yields related
results: both misses, or hits related by `sameExceptSourceType`. -/
lemma find?_rel_sameExceptSourceType (e : Transaction) :
    ∀ {rows rows' : List DbRow}, List.Forall₂ sameExceptSourceType rows rows' →
      (rows.find? (fun d => transactionMatches e d) = none ∧
        rows'.find? (fun d => transactionMatches e d) = none) ∨
      (∃ d d', rows.find? (fun d => transactionMatches e d) = some d ∧
        rows'.find? (fun d => transactionMatches e d) = some d' ∧
        sameExceptSourceType d d') := by
  intro rows rows' h
  induction h with
  | nil => exact Or.inl ⟨rfl, rfl⟩
  | cons hd tl ih =>
    rename_i d d' ds ds'
    rw [List.find?_cons, List.find?_cons,
      ← (matcher_reads_no_sourceType e _ _ hd).1]
    cases hm : transactionMatches e d
    · simpa using ih
    · exact Or.inr ⟨d, d', rfl, rfl, hd⟩

/-- One loop step is insensitive to `source_type` changes in the ledger
rows. -/
lemma matchStep_sameExceptSourceType (rows rows' : List DbRow)
    (h : List.Forall₂ sameExceptSourceType rows rows')
    (acc : DupResult) (e : Transaction) :
    matchStep rows acc e = matchStep rows' acc e := by
  rcases find?_rel_sameExceptSourceType e h with ⟨h1, h2⟩ | ⟨d, d', h1, h2, hdd⟩
  · unfold matchStep
    rw [h1, h2]
  · unfold matchStep
    rw [h1, h2]
    obtain ⟨-, hmt, hid⟩ := matcher_reads_no_sourceType e d d' hdd
    simp [hmt, hid]


/-! ## Claim theorems -/

/-- C1 counterexample: the spec's scenario — existing bank row with archive
reference "670001", candidate with only bank reference "420189451", equal
amount 2600000 and currency "nok" — is NOT flagged by the code: the
candidate passes the validity filter, yet `transactionMatches` is false and
`findDuplicates` returns an empty match set. -/
theorem c1_counterexample :
    isValidTransaction ⟨none, 2600000, "nok", none, some "420189451"⟩ = true ∧
    transactionMatches ⟨none, 2600000, "nok", none, some "420189451"⟩
      ⟨none, some "670001", 2600000, "nok", "bank"⟩ = false ∧
    findDuplicates [⟨none, 2600000, "nok", none, some "420189451"⟩]
      [⟨none, some "670001", 2600000, "nok", "bank"⟩] =
      ⟨[], []⟩ := by decide

/-- C1 (amended): a candidate with no truthy archive reference and no truthy
processor payment identifier — in particular a bank-reference-only candidate
— is never flagged: the Tier-3 fallback derives the candidate identifier
from `stripe_payment_id || archive_reference` only, so it is empty and the
tier's non-empty-identifier guard fails; `findDuplicates` on a batch of such
candidates returns no matches, whatever the ledger contains. -/
theorem c1_amended (cands : List Transaction) (rows : List DbRow)
    (h : ∀ e ∈ cands, strTruthy e.stripe_payment_id = false ∧
      strTruthy e.archive_reference = false) :
    findDuplicates cands rows = ⟨[], []⟩ := by
  unfold findDuplicates
  rw [foldl_matchStep_eq]
  have hnone : ∀ e ∈ cands,
      rows.find? (fun d => transactionMatches e d) = none := by
    intro e he
    rw [List.find?_eq_none]
    intro d _
    simp [transactionMatches_of_bankRefOnly e d (h e he).1 (h e he).2]
  have h1 : cands.filterMap (candidateMatchedId rows) = [] := by
    rw [List.filterMap_eq_nil_iff]
    intro e he
    simp [candidateMatchedId, hnone e he]
  have h2 : cands.filterMap (candidateMatch rows) = [] := by
    rw [List.filterMap_eq_nil_iff]
    intro e he
    simp [candidateMatch, hnone e he]
  rw [h1, h2]
  rfl

/-- C1 witness: `c1_amended` applied to the spec's scenario. -/
theorem c1_witness :
    findDuplicates [⟨none, 2600000, "nok", none, some "420189451"⟩]
      [⟨none, some "670001", 2600000, "nok", "bank"⟩] = ⟨[], []⟩ :=
  c1_amended _ _ (by decide)

/-- C2 counterexample: the cited `convertAmountToMinorUnits` multiplies by
100 unconditionally — feeding it the already-canonical minor-units value
399900 (as the string it would arrive as) yields 39990000 in both CSV
routes, not 399900, and it multiplies "3999" by 100 although that string
has no fractional separator. -/
theorem c2_counterexample :
    convertAmountToMinorUnitsStripe "399900" = some 39990000 ∧
    convertAmountToMinorUnitsBank "399900" = some 39990000 ∧
    convertAmountToMinorUnitsStripe "3999" = some 399900 ∧
    ((convertAmountToMinorUnitsStripe "399900" == some 399900) = false) := by
  decide

/-- C2 (amended): `convertAmountToMinorUnits` always interprets its string
input as major units and multiplies by 100 with rounding, fractional
separator or not: "3999.00" (and Norwegian "3999,00") normalize to 399900,
while the already-canonical integer string "399900" is re-multiplied to
39990000. An already-integer minor-units amount passes through unchanged
only on paths that bypass the converter: the save route copies the numeric
`amount` field as-is. -/
theorem c2_amended :
    convertAmountToMinorUnitsStripe "3999.00" = some 399900 ∧
    convertAmountToMinorUnitsBank "3999,00" = some 399900 ∧
    convertAmountToMinorUnitsStripe "399900" = some 39990000 ∧
    (∀ today (ts : List SaveInput) (i : Nat),
      ((mapTransactionsToInsert today ts)[i]?).map SaveRow.amount =
        (ts[i]?).map SaveInput.amount) := by
  refine ⟨by decide, by decide, by decide, ?_⟩
  intro today ts i
  unfold mapTransactionsToInsert
  rw [List.getElem?_map]
  cases ts[i]? <;> simp [mapSaveRow]

/-- C5: when the read of existing ledger rows fails, the duplicate-check
handler returns the 500 error response — never a successful (and so never a
silently-empty) duplicate set. -/
theorem c5_lookup_failure_is_explicit (transactions : Option (List Transaction))
    (msg : String) :
    (checkDuplicatesPOST transactions (Except.error msg)).isFailure = true := by
  unfold checkDuplicatesPOST
  cases transactions with
  | none => rfl
  | some ts =>
    by_cases h : (ts.filter isValidTransaction).length = 0 <;>
      simp [h, HandlerResult.isFailure]

/-- C7: identifier normalization lowercases and trims, so "ABC123",
" abc123 " and "Abc123" are all treated as "abc123"; and the spec's
scenario — existing stripe row "pi_AAA" (60000, usd) against candidate
"pi_aaa" — is matched at Tier 2 (`payment_id`) with
`matchedIds = {"pi_aaa"}`. -/
theorem c7_case_insensitive_matching :
    normalizePaymentId "ABC123" = "abc123" ∧
    normalizePaymentId " abc123 " = "abc123" ∧
    normalizePaymentId "Abc123" = "abc123" ∧
    paymentIdsMatch "ABC123" " abc123 " = true ∧
    paymentIdsMatch " abc123 " "Abc123" = true ∧
    findDuplicates [⟨some "pi_aaa", 60000, "usd", none, none⟩]
      [⟨some "pi_AAA", none, 60000, "usd", "stripe"⟩] =
      ⟨["pi_aaa"], [⟨"pi_aaa", "pi_AAA", MatchType.payment_id⟩]⟩ := by decide

/-- C8: the matcher is a pure, deterministic function of its two input
lists: two runs on the same candidate batch and the same ledger snapshot
coincide, and the loop's result decomposes into independent per-candidate
contributions (each candidate's first matching row), so no state flows
between candidates, between runs, or from anywhere else. -/
theorem c8_matcher_pure_deterministic (cands : List Transaction) (rows : List DbRow) :
    findDuplicates cands rows = findDuplicates cands rows ∧
    (findDuplicates cands rows).matchDetails =
      cands.filterMap (candidateMatch rows) ∧
    (findDuplicates cands rows).matchedExtractedIds =
      (cands.filterMap (candidateMatchedId rows)).foldl insertSet [] := by
  refine ⟨rfl, ?_, ?_⟩
  · unfold findDuplicates
    rw [foldl_matchStep_eq]
    simp
  · unfold findDuplicates
    rw [foldl_matchStep_eq]

/-- C9: in the bank CSV import loop every record is processed independently:
the accepted rows are exactly the per-record successes, the reported errors
are exactly the per-record rejections (in order), and a rejection never
aborts the rest of the batch — e.g. with an unparseable amount "abc" first,
the following valid record is still imported while the rejection message is
reported. -/
theorem c9_rejections_reported_without_abort :
    (∀ (rand : Nat → String) (txns : List BankCSVTxn),
      (processBankCSV rand txns).1 =
        txns.enum.filterMap (fun p => acceptedRow (processBankRecord (rand p.1) p.2)) ∧
      (processBankCSV rand txns).2 =
        txns.enum.filterMap (fun p => rejectionMsg (processBankRecord (rand p.1) p.2))) ∧
    (processBankCSV (fun _ => "r")
        [⟨some "01.02.2025", none, none, some "abc", none, none, none, none, none⟩,
         ⟨some "01.02.2025", none, none, none, some "100,00", some "670002", none, none, none⟩]).2 =
      ["Invalid amount format: abc"] ∧
    ((processBankCSV (fun _ => "r")
        [⟨some "01.02.2025", none, none, some "abc", none, none, none, none, none⟩,
         ⟨some "01.02.2025", none, none, none, some "100,00", some "670002", none, none, none⟩]).1.map
          BankRow.amount) = [10000] := by
  refine ⟨?_, by decide, by decide⟩
  intro rand txns
  unfold processBankCSV
  rw [foldl_bankStep_eq]
  exact ⟨by simp, by simp⟩

/-- C3 counterexample: candidate archive reference "aaa" against a ledger
row with archive reference "bbb" and equal amount/currency: no tier-1 and no
tier-2 match holds — the match is produced by the Tier-3 amount+currency
fallback — yet the diagnostic reports `archive_reference` (Tier 1), because
the reported tier is computed from field presence alone. -/
theorem c3_counterexample :
    tier1Matches ⟨none, 100, "nok", some "aaa", none⟩
      ⟨none, some "bbb", 100, "nok", "bank"⟩ = false ∧
    tier2Matches ⟨none, 100, "nok", some "aaa", none⟩
      ⟨none, some "bbb", 100, "nok", "bank"⟩ = false ∧
    tier3Matches ⟨none, 100, "nok", some "aaa", none⟩
      ⟨none, some "bbb", 100, "nok", "bank"⟩ = true ∧
    matchTypeFor ⟨none, 100, "nok", some "aaa", none⟩
      ⟨none, some "bbb", 100, "nok", "bank"⟩ = MatchType.archive_reference ∧
    (findDuplicates [⟨none, 100, "nok", some "aaa", none⟩]
      [⟨none, some "bbb", 100, "nok", "bank"⟩]).matchDetails =
      [⟨"aaa", "bbb", MatchType.archive_reference⟩] := by decide

/-- C3 (amended): whenever a candidate actually satisfies Tier 1, the
reported tier is Tier 1 (`archive_reference`) — so a candidate satisfying
both Tier 1 and Tier 3 always reports Tier 1, never the heuristic tier; but
in general the reported tier is derived from field presence: whenever both
sides merely carry truthy archive references the report says
`archive_reference` even if the match was produced by a lower tier. -/
theorem c3_amended :
    (∀ e d, tier1Matches e d = true →
      matchTypeFor e d = MatchType.archive_reference) ∧
    (∀ e d, strTruthy e.archive_reference = true →
      strTruthy d.archive_reference = true →
      matchTypeFor e d = MatchType.archive_reference) := by
  constructor
  · intro e d h
    unfold tier1Matches at h
    simp only [Bool.and_eq_true] at h
    unfold matchTypeFor
    simp [h.1.1, h.1.2]
  · intro e d h1 h2
    unfold matchTypeFor
    simp [h1, h2]

/-- C3 witness: `c3_amended` applied to a candidate/row pair satisfying both
Tier 1 and Tier 3. -/
theorem c3_witness :
    matchTypeFor ⟨none, 2600000, "nok", some "670001", none⟩
      ⟨none, some "670001", 2600000, "nok", "bank"⟩ =
      MatchType.archive_reference :=
  c3_amended.1 _ _ (by decide)

/-- C4: the Tier-3 fallback, for a candidate and a row that do have (Tier-3)
identifiers, holds exactly when the amounts are equal, the currencies are
equal case-insensitively, and the identifier length difference is at most 5;
a length difference of 6 or more never matches under Tier 3; and the spec's
boundary example (length diff 1, amount 5000, currency "usd") matches. -/
theorem c4_tier3_characterization :
    (∀ e d, 6 ≤ tier3LenDiff e d → tier3Matches e d = false) ∧
    (∀ e d, tier3ExtractedId e ≠ "" → tier3DbId d ≠ "" →
      (tier3Matches e d = true ↔
        e.amount = d.amount ∧
          normalizePaymentId e.currency = normalizePaymentId d.currency ∧
          tier3LenDiff e d ≤ 5)) ∧
    tier3Matches ⟨some "pi_abcdefghij012345678", 5000, "usd", none, none⟩
      ⟨some "pi_abcdefghij0123456789", none, 5000, "usd", "stripe"⟩ = true ∧
    tier3LenDiff ⟨some "pi_abcdefghij012345678", 5000, "usd", none, none⟩
      ⟨some "pi_abcdefghij0123456789", none, 5000, "usd", "stripe"⟩ = 1 := by
  refine ⟨?_, ?_, by decide, by decide⟩
  · intro e d h
    have h5 : ¬ (tier3LenDiff e d ≤ 5) := by omega
    simp [tier3Matches, h5]
  · intro e d he hd
    simp [tier3Matches, he, hd, and_assoc]

/-- C4 witness: `c4_tier3_characterization` at concrete inputs — a pair with
length difference 6 does not match, and a pair with equal amount/currency
and length difference 1 does. -/
theorem c4_witness :
    tier3Matches ⟨some "abcdefgh", 5000, "usd", none, none⟩
      ⟨some "ab", none, 5000, "usd", "stripe"⟩ = false ∧
    tier3Matches ⟨some "pi_a", 100, "usd", none, none⟩
      ⟨some "pi_ab", none, 100, "usd", "stripe"⟩ = true :=
  ⟨c4_tier3_characterization.1 _ _ (by decide),
    (c4_tier3_characterization.2.1 _ _ (by decide) (by decide)).mpr
      ⟨rfl, rfl, by decide⟩⟩

/-- C6: in the save route, every row of the batch is still written (the
mapped list has the batch's length); a row whose archive reference is
carried by two or more candidates of the batch is emitted with
`archive_reference = null` but otherwise exactly as it would be emitted on
its own (all other fields, including its source reference, unchanged); and a
row whose archive reference is unique in the batch keeps it. -/
theorem c6_archive_ref_suppression :
    (∀ today (ts : List SaveInput),
      (mapTransactionsToInsert today ts).length = ts.length) ∧
    (∀ today (ts : List SaveInput) (i : Nat) (t : SaveInput) (r : String),
      ts[i]? = some t → t.archive_reference = some r →
      2 ≤ countArchiveRef ts r →
      ∃ out solo, (mapTransactionsToInsert today ts)[i]? = some out ∧
        mapTransactionsToInsert today [t] = [solo] ∧
        out = { solo with archive_reference := none }) ∧
    (∀ today (ts : List SaveInput) (i : Nat) (t : SaveInput) (r : String),
      ts[i]? = some t → t.archive_reference = some r →
      countArchiveRef ts r = 1 →
      ∃ out, (mapTransactionsToInsert today ts)[i]? = some out ∧
        mapTransactionsToInsert today [t] = [out]) := by
  refine ⟨?_, ?_, ?_⟩
  · intro today ts
    simp [mapTransactionsToInsert]
  · intro today ts i t r hget har hcnt
    have hr : r ≠ "" := by
      rintro rfl
      rw [countArchiveRef_empty] at hcnt
      omega
    have hcS : countArchiveRef [t] r = 1 := countArchiveRef_singleton t r har hr
    refine ⟨mapSaveRow today ts t, mapSaveRow today [t] t, ?_, rfl, ?_⟩
    · unfold mapTransactionsToInsert
      rw [List.getElem?_map, hget]
      rfl
    · have hne : countArchiveRef ts r ≠ 1 := by omega
      simp [mapSaveRow, hcS, har, strTruthy, getStr, hr, hne]
  · intro today ts i t r hget har hcnt
    have hr : r ≠ "" := by
      rintro rfl
      rw [countArchiveRef_empty] at hcnt
      omega
    have hcS : countArchiveRef [t] r = 1 := countArchiveRef_singleton t r har hr
    refine ⟨mapSaveRow today ts t, ?_, ?_⟩
    · unfold mapTransactionsToInsert
      rw [List.getElem?_map, hget]
      rfl
    · show mapTransactionsToInsert today [t] = [mapSaveRow today ts t]
      unfold mapTransactionsToInsert
      simp [mapSaveRow, hcS, hcnt, har, strTruthy, getStr, hr]

/-- C6 witness: `c6_archive_ref_suppression` on a concrete batch — two
candidates both deriving archive reference "670001" with distinct source
references are both written with a null archive reference, and a batch-unique
archive reference "670002" is kept. -/
theorem c6_witness :
    (∃ out solo,
      (mapTransactionsToInsert "2025-01-01"
        [⟨some "income", 100, "NOK", some "2025-03-01", some "bank", some "s1",
            none, none, none, none, none, some "b1", some "670001", none, none⟩,
         ⟨some "income", 100, "NOK", some "2025-03-01", some "bank", some "s2",
            none, none, none, none, none, some "b2", some "670001", none, none⟩])[0]? =
        some out ∧
      mapTransactionsToInsert "2025-01-01"
        [⟨some "income", 100, "NOK", some "2025-03-01", some "bank", some "s1",
            none, none, none, none, none, some "b1", some "670001", none, none⟩] = [solo] ∧
      out = { solo with archive_reference := none }) ∧
    (∃ out,
      (mapTransactionsToInsert "2025-01-01"
        [⟨some "income", 50, "nok", some "2025-03-02", some "bank", some "s3",
            none, none, none, none, none, none, some "670002", none, none⟩])[0]? =
        some out ∧
      mapTransactionsToInsert "2025-01-01"
        [⟨some "income", 50, "nok", some "2025-03-02", some "bank", some "s3",
            none, none, none, none, none, none, some "670002", none, none⟩] = [out]) :=
  ⟨c6_archive_ref_suppression.2.1 "2025-01-01" _ 0 _ "670001" rfl rfl (by decide),
    c6_archive_ref_suppression.2.2 "2025-01-01" _ 0 _ "670002" rfl rfl (by decide)⟩

/-- C10: the matcher never inspects `source_type` — on two ledger snapshots
that agree on every identifier, amount and currency field and differ only in
`source_type`, `findDuplicates` returns identical results; and the Tier-3
fallback does match a processor-sourced candidate against a bank-sourced
row and a bank-sourced candidate against a processor-sourced row. -/
theorem c10_source_type_irrelevant :
    (∀ (cands : List Transaction) (rows rows' : List DbRow),
      List.Forall₂ sameExceptSourceType rows rows' →
      findDuplicates cands rows = findDuplicates cands rows') ∧
    transactionMatches ⟨some "pi_x", 2600000, "nok", none, none⟩
      ⟨none, some "670001", 2600000, "nok", "bank"⟩ = true ∧
    transactionMatches ⟨none, 2600000, "nok", some "670001", none⟩
      ⟨some "pi_x", none, 2600000, "nok", "stripe"⟩ = true := by
  refine ⟨?_, by decide, by decide⟩
  intro cands rows rows' h
  unfold findDuplicates
  have hstep : matchStep rows = matchStep rows' :=
    funext fun acc => funext fun e =>
      matchStep_sameExceptSourceType rows rows' h acc e
  rw [hstep]

/-- C10 witness: `c10_source_type_irrelevant` on a concrete snapshot pair
differing only in `source_type` ("bank" vs "stripe"). -/
theorem c10_witness :
    findDuplicates [⟨some "pi_x", 2600000, "nok", none, none⟩]
      [⟨none, some "670001", 2600000, "nok", "bank"⟩] =
    findDuplicates [⟨some "pi_x", 2600000, "nok", none, none⟩]
      [⟨none, some "670001", 2600000, "nok", "stripe"⟩] :=
  c10_source_type_irrelevant.1 _ _ _
    (List.Forall₂.cons ⟨rfl, rfl, rfl, rfl⟩ List.Forall₂.nil)
